import Mathlib

/-!
Verification development for the catalog-synchronization core of the
Ecommerce_MultiStore backend (Python/FastAPI/SQLAlchemy), shallowly embedded
in Lean 4.

Embedding conventions:
* `datetime` values are abstract `Nat` timestamps; every call of
  `datetime.utcnow()` inside one request is modelled by the single parameter
  `now` of that request.
* Python `float` prices are modelled as `ℚ` (the engine only copies,
  compares and does exact-looking arithmetic on them); Python `int` is `Int`.
* UUIDs are modelled as `Nat` drawn from a fresh-id counter in the database
  state (`Db.next_id`), mirroring `uuid4()`.
* The MD5 checksum of `_calculate_checksum` is consumed by the code only
  through equality tests, so it is modelled by its deterministic pre-image:
  the tuple of the four rendered fields (`name|mrp|selling_price|quantity`).
  Hash collisions, which the design explicitly tolerates, are abstracted away.
* SQLAlchemy `query(...).first()` is first-match search over the row list;
  mutating the fetched ORM object is replacement of that first match.
* A per-record Python exception raised while processing one record of a batch
  (caught by the `try/except` in `process_batch_sync`) is modelled by pairing
  each record with an `Option String` fault: `some e` means processing this
  record raised exception message `e`, `none` means it ran normally.
-/

/-- Outcome strings returned by `SyncEngine._upsert_product` /
`_update_inventory_only`: the source returns only the strings
`"created"` or `"updated"`. -/
inductive UpsertOutcome where
  | created : UpsertOutcome
  | updated : UpsertOutcome
deriving Repr, DecidableEq

/-- Store tiers, from `app.models.models.StoreTier`. -/
inductive StoreTier where
  | TIER1 : StoreTier
  | TIER2 : StoreTier
  | TIER3 : StoreTier
  | TIER4 : StoreTier
deriving Repr, DecidableEq

/-- Validated sync record, from `app.schemas.schemas.SyncProductItem`
(pydantic model; the field constraints live in
`validate_sync_product_item` below). -/
structure SyncProductItem where
  external_id : String
  name : String
  description : Option String
  mrp : ℚ
  selling_price : ℚ
  quantity : Int
  unit : Option String
  sku : Option String
  barcode : Option String
  category : Option String
  hsn_code : Option String
  gst_percent : Option ℚ
  updated_at : Option Nat
deriving Repr, DecidableEq

/-- Raw (unvalidated) sync record as it arrives in the request JSON:
required fields may be missing (`none`). From the wire shape of
`SyncProductItem`. -/
structure RawSyncProductItem where
  external_id : Option String
  name : Option String
  description : Option String
  mrp : Option ℚ
  selling_price : Option ℚ
  quantity : Option Int
  unit : Option String
  sku : Option String
  barcode : Option String
  category : Option String
  hsn_code : Option String
  gst_percent : Option ℚ
  updated_at : Option Nat
deriving Repr, DecidableEq

/-- Raw batch request, from `app.schemas.schemas.SyncBatchRequest`. -/
structure RawSyncBatchRequest where
  store_id : Nat
  sync_type : String
  timestamp : Nat
  products : List RawSyncProductItem
deriving Repr, DecidableEq

/-- Validated batch request (post-pydantic image of `SyncBatchRequest`). -/
structure SyncBatchRequestV where
  store_id : Nat
  sync_type : String
  timestamp : Nat
  products : List SyncProductItem
deriving Repr, DecidableEq

/-- Checksum value: the deterministic pre-image of the MD5 in
`SyncEngine._calculate_checksum`, i.e. the tuple rendered into
`f"{name}|{mrp}|{selling_price}|{quantity}"`. -/
structure Checksum where
  name : String
  mrp : ℚ
  selling_price : ℚ
  quantity : Int
deriving Repr, DecidableEq

/-- Product row, from `app.models.models.Product`. -/
structure Product where
  id : Nat
  store_id : Nat
  external_id : String
  name : String
  slug : String
  description : Option String
  short_description : Option String
  category_id : Option Nat
  mrp : ℚ
  selling_price : ℚ
  discount_percent : ℚ
  cost_price : Option ℚ
  quantity : Int
  low_stock_threshold : Int
  unit : Option String
  sku : Option String
  barcode : Option String
  hsn_code : Option String
  gst_percent : ℚ
  images : List String
  thumbnail : Option String
  is_active : Bool
  is_featured : Bool
  is_in_stock : Bool
  last_synced_at : Option Nat
  sync_version : Int
  sync_checksum : Option Checksum
  created_at : Nat
  updated_at : Nat
deriving Repr, DecidableEq

/-- Store row (the fields the sync core reads/writes), from
`app.models.models.Store`. -/
structure Store where
  id : Nat
  name : String
  sync_tier : StoreTier
  sync_interval_minutes : Nat
  last_sync_at : Option Nat
  is_active : Bool
deriving Repr, DecidableEq

/-- Sync audit row, from `app.models.models.SyncLog`. -/
structure SyncLog where
  id : Nat
  store_id : Nat
  sync_type : String
  status : String
  records_received : Nat
  records_created : Nat
  records_updated : Nat
  records_failed : Nat
  duration_seconds : Nat
  error_details : Option (List (String × String))
  started_at : Nat
  completed_at : Nat
deriving Repr, DecidableEq

/-- Database state threaded through the engine: the row lists plus a
fresh-id counter modelling `uuid4()`. -/
structure Db where
  products : List Product
  stores : List Store
  sync_logs : List SyncLog
  next_id : Nat
deriving Repr, DecidableEq

/-- Draw a fresh id (models one call of `uuid4()`). -/
def fresh_id (db : Db) : Nat × Db :=
  (db.next_id, { db with next_id := db.next_id + 1 })

/-- First product matching `(store_id, external_id)`: the
`query(Product).filter(and_(...)).first()` lookup of the engine. -/
def find_product : List Product → Nat → String → Option Product
  | [], _, _ => none
  | p :: rest, sid, ext =>
      if p.store_id = sid ∧ p.external_id = ext then some p
      else find_product rest sid ext

/-- Mutate the first product matching `(store_id, external_id)` in place
(the ORM mutates the object returned by `.first()`). -/
def update_first_product : List Product → Nat → String → (Product → Product) → List Product
  | [], _, _, _ => []
  | p :: rest, sid, ext, f =>
      if p.store_id = sid ∧ p.external_id = ext then f p :: rest
      else p :: update_first_product rest sid ext f

/-- First store with the given id: `query(Store).filter(Store.id == store_id).first()`. -/
def find_store : List Store → Nat → Option Store
  | [], _ => none
  | s :: rest, sid => if s.id = sid then some s else find_store rest sid

/-- Mutate the first store with the given id in place. -/
def update_first_store : List Store → Nat → (Store → Store) → List Store
  | [], _, _ => []
  | s :: rest, sid, f => if s.id = sid then f s :: rest else s :: update_first_store rest sid f

/-- Checksum of a sync record, from `SyncEngine._calculate_checksum` (the
MD5 is modelled by its pre-image tuple, see the header comment). -/
def calculate_checksum (p : SyncProductItem) : Checksum :=
  ⟨p.name, p.mrp, p.selling_price, p.quantity⟩

/-- Rounding to two decimal places, modelling Python `round(x, 2)`
(ties-at-half behave as round-half-up here; no claim depends on ties). -/
def round2 (q : ℚ) : ℚ := ((round (q * 100) : ℤ) : ℚ) / 100

/-- Discount percentage, from `SyncEngine._calculate_discount`. -/
def calculate_discount (mrp selling_price : ℚ) : ℚ :=
  if 0 < mrp then round2 ((mrp - selling_price) / mrp * 100) else 0

/-- Python `\s` class used by `_generate_slug`'s regexes. -/
def python_space (c : Char) : Bool :=
  c == ' ' || c == '\t' || c == '\n' || c == '\r' || c == '\x0b' || c == '\x0c'

/-- Character class kept by `re.sub(r'[^a-z0-9\s-]', '', slug)`. -/
def slug_keep (c : Char) : Bool :=
  c.isLower || c.isDigit || python_space c || c == '-'

/-- Collapse of every run matched by `[\s-]+` into a single hyphen
(`re.sub(r'[\s-]+', '-', slug)`); the boolean tracks being inside a run. -/
def collapse_runs : List Char → Bool → List Char
  | [], _ => []
  | c :: rest, inRun =>
      if python_space c || c == '-' then
        if inRun then collapse_runs rest true
        else '-' :: collapse_runs rest true
      else c :: collapse_runs rest false

/-- Leading/trailing hyphen removal, modelling `str.strip('-')`. -/
def strip_hyphens (l : List Char) : List Char :=
  ((l.dropWhile (fun c => c == '-')).reverse.dropWhile (fun c => c == '-')).reverse

/-- URL slug from a product name, from `SyncEngine._generate_slug`. -/
def generate_slug (name : String) : String :=
  let lowered := (name.data.map Char.toLower).filter slug_keep
  String.mk ((strip_hyphens (collapse_runs lowered false)).take 500)

/-- Field overwrite on an existing product, from
`SyncEngine._update_product_fields`. -/
def update_product_fields (product : Product) (data : SyncProductItem) : Product :=
  { product with
    name := data.name
    description := data.description
    mrp := data.mrp
    selling_price := data.selling_price
    quantity := data.quantity
    unit := data.unit
    sku := data.sku
    barcode := data.barcode
    hsn_code := data.hsn_code
    gst_percent := data.gst_percent.getD 0
    discount_percent := calculate_discount data.mrp data.selling_price }

/-- Mutation applied by the update branch of `_upsert_product` to the fetched
row: `_update_product_fields`, then checksum, version bump, timestamps, then
`is_in_stock = quantity > 0` (using the already-overwritten quantity). -/
def apply_update (product_data : SyncProductItem) (now : Nat) : Product → Product :=
  fun p =>
    let p1 := update_product_fields p product_data
    let p2 := { p1 with
      sync_checksum := some (calculate_checksum product_data)
      sync_version := p1.sync_version + 1
      last_synced_at := some now
      updated_at := now }
    { p2 with is_in_stock := decide (0 < p2.quantity) }

/-- Row built by the `Product(...)` constructor call in the create branch of
`_upsert_product` (unlisted columns take their model defaults). -/
def create_product (pid store_id : Nat) (product_data : SyncProductItem) (now : Nat) : Product :=
  { id := pid
    store_id := store_id
    external_id := product_data.external_id
    name := product_data.name
    slug := generate_slug product_data.name
    description := product_data.description
    short_description := none
    category_id := none
    mrp := product_data.mrp
    selling_price := product_data.selling_price
    discount_percent := calculate_discount product_data.mrp product_data.selling_price
    cost_price := none
    quantity := product_data.quantity
    low_stock_threshold := 10
    unit := product_data.unit
    sku := product_data.sku
    barcode := product_data.barcode
    hsn_code := product_data.hsn_code
    gst_percent := product_data.gst_percent.getD 0
    images := []
    thumbnail := none
    is_active := true
    is_featured := false
    is_in_stock := decide (0 < product_data.quantity)
    last_synced_at := some now
    sync_version := 1
    sync_checksum := some (calculate_checksum product_data)
    created_at := now
    updated_at := now }

/-- Insert-or-update of one product, from `SyncEngine._upsert_product`.
Returns the outcome string and the new database state. -/
def upsert_product (db : Db) (store_id : Nat) (product_data : SyncProductItem)
    (sync_type : String) (now : Nat) : UpsertOutcome × Db :=
  let checksum := calculate_checksum product_data
  match find_product db.products store_id product_data.external_id with
  | some existing_product =>
      if sync_type = "delta" ∧ existing_product.sync_checksum = some checksum then
        (.updated, db)
      else
        (.updated,
          { db with products := (update_first_product db.products store_id
              product_data.external_id (apply_update product_data now)) })
  | none =>
      let fr := fresh_id db
      let pid := fr.1
      let db := fr.2
      let new_product := create_product pid store_id product_data now
      (.created, { db with products := db.products ++ [new_product] })

/-- Mutation applied by the fast path of `_update_inventory_only` to the
fetched row: only quantity, stock flag and timestamps. -/
def apply_inventory_update (product_data : SyncProductItem) (now : Nat) : Product → Product :=
  fun p =>
    { p with
      quantity := product_data.quantity
      is_in_stock := decide (0 < product_data.quantity)
      last_synced_at := some now
      updated_at := now }

/-- Inventory-only fast path, from `SyncEngine._update_inventory_only`:
update quantity/stock/timestamps if the product exists, else fall back to a
full upsert. -/
def update_inventory_only (db : Db) (store_id : Nat) (product_data : SyncProductItem)
    (now : Nat) : UpsertOutcome × Db :=
  match find_product db.products store_id product_data.external_id with
  | some _ =>
      (.updated,
        { db with products := (update_first_product db.products store_id
            product_data.external_id (apply_inventory_update product_data now)) })
  | none => upsert_product db store_id product_data "full" now

/-- Running counters of one batch, from the `stats` dict initialised at the
top of `SyncEngine.process_batch_sync`. -/
structure SyncStats where
  processed : Nat
  created : Nat
  updated : Nat
  failed : Nat
  errors : List (String × String)
deriving Repr, DecidableEq

/-- Initial counters of a batch. -/
def init_stats : SyncStats := ⟨0, 0, 0, 0, []⟩

/-- Response of one batch, from `app.schemas.schemas.SyncBatchResponse`. -/
structure SyncBatchResponse where
  success : Bool
  sync_id : Nat
  processed : Nat
  created : Nat
  updated : Nat
  failed : Nat
  errors : List (String × String)
  next_sync_recommended_at : Nat
  duration_seconds : Nat
deriving Repr, DecidableEq

/-- Dispatch for one record of the batch: the body of the `try` block in
`process_batch_sync` (inventory_only goes to the fast path, everything else
to `_upsert_product`). -/
def record_step (db : Db) (store_id : Nat) (sync_type : String) (now : Nat)
    (pd : SyncProductItem) : UpsertOutcome × Db :=
  if sync_type = "inventory_only" then update_inventory_only db store_id pd now
  else upsert_product db store_id pd sync_type now

/-- Record loop of `process_batch_sync`: each record carries its fault
(`some e` models the record's processing raising exception `e`, caught by the
per-record `except` which increments `failed` and appends to `errors`;
`none` models normal processing, which increments `processed` and one of
`created`/`updated`). -/
def sync_loop (store_id : Nat) (sync_type : String) (now : Nat) :
    List (SyncProductItem × Option String) → SyncStats → Db → SyncStats × Db
  | [], stats, db => (stats, db)
  | (pd, some e) :: rest, stats, db =>
      sync_loop store_id sync_type now rest
        { stats with
          failed := stats.failed + 1
          errors := stats.errors ++ [(pd.external_id, e)] } db
  | (pd, none) :: rest, stats, db =>
      let r := record_step db store_id sync_type now pd
      let stats1 :=
        match r.1 with
        | .created => { stats with created := stats.created + 1, processed := stats.processed + 1 }
        | .updated => { stats with updated := stats.updated + 1, processed := stats.processed + 1 }
      sync_loop store_id sync_type now rest stats1 r.2

/-- Status string written by `SyncEngine._log_sync`:
`"success" if failed == 0 else "partial" if processed > 0 else "failed"`. -/
def log_status (processed failed : Nat) : String :=
  if failed = 0 then "success" else if 0 < processed then "partial" else "failed"

/-- Audit-row write of `SyncEngine._log_sync` (duration is modelled as 0
time units: all timestamps of one request collapse to `now`). -/
def log_sync (db : Db) (store_id sync_id : Nat) (sync_type : String)
    (stats : SyncStats) (now : Nat) : Db :=
  let sync_log : SyncLog :=
    { id := sync_id
      store_id := store_id
      sync_type := sync_type
      status := log_status stats.processed stats.failed
      records_received := stats.processed + stats.failed
      records_created := stats.created
      records_updated := stats.updated
      records_failed := stats.failed
      duration_seconds := 0
      error_details := if stats.errors = [] then none else some stats.errors
      started_at := now
      completed_at := now }
  { db with sync_logs := db.sync_logs ++ [sync_log] }

/-- Sync interval table of `SyncEngine._calculate_next_sync_time` (minutes);
the dict covers every tier, so the `.get(tier, 60)` default is dead. -/
def next_sync_intervals : StoreTier → Nat
  | .TIER1 => 5
  | .TIER2 => 15
  | .TIER3 => 60
  | .TIER4 => 240

/-- Recommended next sync time, from `SyncEngine._calculate_next_sync_time`
(timestamps are in seconds, so `timedelta(minutes=m)` adds `60 * m`). -/
def calculate_next_sync_time (tier : StoreTier) (now : Nat) : Nat :=
  now + 60 * next_sync_intervals tier

/-- Batch orchestration, from `SyncEngine.process_batch_sync`: resolve the
store (raising `ValueError` when absent), run the record loop, then
unconditionally stamp `last_sync_at`, write the audit row and build the
response. Each record comes paired with its fault (see `sync_loop`). -/
def process_batch_sync (db : Db) (store_id : Nat) (sync_type : String)
    (products : List (SyncProductItem × Option String)) (now : Nat) :
    Except String (SyncBatchResponse × Db) :=
  match find_store db.stores store_id with
  | none => .error "Store not found"
  | some store =>
      let fr := fresh_id db
      let sync_id := fr.1
      let db := fr.2
      let r := sync_loop store_id sync_type now products init_stats db
      let stats := r.1
      let db := r.2
      let stamp : Store → Store := fun s => { s with last_sync_at := some now }
      let db := { db with stores := update_first_store db.stores store_id stamp }
      let db := log_sync db store_id sync_id sync_type stats now
      let next_sync_at := calculate_next_sync_time store.sync_tier now
      .ok
        ({ success := stats.failed == 0
           sync_id := sync_id
           processed := stats.processed
           created := stats.created
           updated := stats.updated
           failed := stats.failed
           errors := stats.errors
           next_sync_recommended_at := next_sync_at
           duration_seconds := 0 }, db)

/-- Fault-free pairing of a record list (no record raises). -/
def with_no_faults (l : List SyncProductItem) : List (SyncProductItem × Option String) :=
  l.map (fun pd => (pd, none))

/-- Pydantic validation of one `SyncProductItem`: `external_id` required with
`min_length=1`, `name` required with `min_length=2`, `mrp`/`selling_price`
required with `gt=0`, `quantity` defaults to 0 with `ge=0`, `gst_percent`
optional with `ge=0, le=100`. -/
def validate_sync_product_item (r : RawSyncProductItem) : Except String SyncProductItem :=
  match r.external_id with
  | none => .error "external_id field required"
  | some ext =>
      if ext.length < 1 then .error "external_id ensure this value has at least 1 characters"
      else match r.name with
        | none => .error "name field required"
        | some nm =>
            if nm.length < 2 then .error "name ensure this value has at least 2 characters"
            else match r.mrp with
              | none => .error "mrp field required"
              | some mrp =>
                  if ¬ 0 < mrp then .error "mrp ensure this value is greater than 0"
                  else match r.selling_price with
                    | none => .error "selling_price field required"
                    | some sp =>
                        if ¬ 0 < sp then .error "selling_price ensure this value is greater than 0"
                        else
                          let qty := r.quantity.getD 0
                          if qty < 0 then .error "quantity ensure this value is greater than or equal to 0"
                          else
                            let gst := r.gst_percent
                            if gst.any (fun g => decide (g < 0) || decide (100 < g)) then
                              .error "gst_percent out of range"
                            else
                              .ok
                                { external_id := ext
                                  name := nm
                                  description := r.description
                                  mrp := mrp
                                  selling_price := sp
                                  quantity := qty
                                  unit := r.unit
                                  sku := r.sku
                                  barcode := r.barcode
                                  category := r.category
                                  hsn_code := r.hsn_code
                                  gst_percent := gst
                                  updated_at := r.updated_at }

/-- Validation of every record of a raw batch; the first invalid record
fails the whole request (pydantic parses the full `products` field before
the handler runs). -/
def validate_all_items : List RawSyncProductItem → Except String (List SyncProductItem)
  | [] => .ok []
  | r :: rest =>
      match validate_sync_product_item r with
      | .error e => .error e
      | .ok item =>
          match validate_all_items rest with
          | .error e => .error e
          | .ok items => .ok (item :: items)

/-- Pydantic validation of `SyncBatchRequest`: `sync_type` must match
`^(delta|full|inventory_only)$`, `products` has `max_items=1000`, each item
is validated, and the `validate_products` validator rejects an empty list.
Any failure rejects the whole request. -/
def validate_sync_batch_request (r : RawSyncBatchRequest) : Except String SyncBatchRequestV :=
  if ¬ (r.sync_type = "delta" ∨ r.sync_type = "full" ∨ r.sync_type = "inventory_only") then
    .error "sync_type string does not match regex"
  else if 1000 < r.products.length then
    .error "products ensure this value has at most 1000 items"
  else
    match validate_all_items r.products with
    | .error e => .error e
    | .ok items =>
        if items.length = 0 then .error "Products list cannot be empty"
        else .ok { store_id := r.store_id, sync_type := r.sync_type,
                   timestamp := r.timestamp, products := items }

/-- Endpoint pipeline of `POST /api/v1/sync/products/batch`
(`app.api.v1.endpoints.sync.sync_products_batch`): pydantic validation of the
request body, then `process_batch_sync`. A validation or `ValueError` failure
returns the error with the database untouched (no commit happened).
Authentication (API-key → store) is resolved before this pipeline and is not
modelled; the run is fault-free (`with_no_faults`). -/
def sync_products_batch (db : Db) (raw : RawSyncBatchRequest) (now : Nat) :
    Except String SyncBatchResponse × Db :=
  match validate_sync_batch_request raw with
  | .error e => (.error e, db)
  | .ok req =>
      match process_batch_sync db req.store_id req.sync_type (with_no_faults req.products) now with
      | .error e => (.error e, db)
      | .ok (resp, db1) => (.ok resp, db1)

/-- Tier thresholds, from `TierManager._calculate_tier` (first match wins,
top-down on the trailing-24h order and product-update counts). -/
def calculate_tier (orders updates : Int) : StoreTier :=
  if orders ≥ 50 ∨ updates ≥ 100 then .TIER1
  else if orders ≥ 20 ∨ updates ≥ 30 then .TIER2
  else if orders ≥ 5 ∨ updates ≥ 10 then .TIER3
  else .TIER4

/-- Sync interval per tier in minutes, from `TierManager._get_sync_interval`
(the dict covers every tier, so the `.get(tier, 60)` default is dead). -/
def get_sync_interval : StoreTier → Nat
  | .TIER1 => 5
  | .TIER2 => 15
  | .TIER3 => 60
  | .TIER4 => 240

/-- Shared-cache counter state of the rate limiter (redis keys to counts). -/
def CacheState := List (String × Nat)

/-- Current value of a counter key. -/
def cache_count : CacheState → String → Nat
  | [], _ => 0
  | (k, v) :: rest, key => if k = key then v else cache_count rest key

/-- Write a counter key. -/
def cache_set : CacheState → String → Nat → CacheState
  | [], key, v => [(key, v)]
  | (k, w) :: rest, key, v =>
      if k = key then (key, v) :: rest else (k, w) :: cache_set rest key v

/-- Atomic increment of `RedisClient.increment` (`INCRBY 1`), returning the
new value; the TTL only expires the key after the window and is not part of
the within-window state. -/
def redis_increment (st : CacheState) (key : String) : Nat × CacheState :=
  let v := cache_count st key + 1
  (v, cache_set st key v)

/-- Counter key built by `RateLimitMiddleware.check_rate_limit`:
`f"ratelimit:{identifier}:{endpoint}:{current_minute}"`. -/
def rate_limit_key (identifier endpoint : String) (current_window : Nat) : String :=
  "ratelimit:" ++ identifier ++ ":" ++ endpoint ++ ":" ++ toString current_window

/-- Rate check, from `RateLimitMiddleware.check_rate_limit`: fixed window
`floor(now / window)`, atomic increment, `remaining = max(0, limit - count)`
(truncated `Nat` subtraction), `reset_time` at the next window boundary,
`allowed = count <= limit`. -/
def check_rate_limit (st : CacheState) (identifier endpoint : String)
    (limit window now : Nat) : (Bool × Nat × Nat) × CacheState :=
  let current_window := now / window
  let cache_key := rate_limit_key identifier endpoint current_window
  let r := redis_increment st cache_key
  let count := r.1
  let remaining := limit - count
  let reset_time := (current_window + 1) * window
  let allowed := count ≤ limit
  ((decide allowed, remaining, reset_time), r.2)

/-- Componentwise sum of batch counters (error lists concatenate). -/
def stats_add (s t : SyncStats) : SyncStats :=
  ⟨s.processed + t.processed, s.created + t.created, s.updated + t.updated,
   s.failed + t.failed, s.errors ++ t.errors⟩

/-- Sequential application of `_upsert_product` in `delta` mode, modelling N
successive delta sync calls for the same store. -/
def upsert_chain (sid now : Nat) : List SyncProductItem → Db → Db
  | [], db => db
  | pd :: rest, db => upsert_chain sid now rest (upsert_product db sid pd "delta" now).2

/-- Concrete sync record used by the counterexamples and witnesses. -/
def sample_item : SyncProductItem :=
  { external_id := "e1", name := "aa", description := none, mrp := 100,
    selling_price := 75, quantity := 5, unit := none, sku := none,
    barcode := none, category := none, hsn_code := none, gst_percent := none,
    updated_at := none }

/-- Concrete catalog row whose stored checksum matches `sample_item`. -/
def sample_product : Product :=
  { id := 11, store_id := 1, external_id := "e1", name := "aa", slug := "aa",
    description := none, short_description := none, category_id := none,
    mrp := 100, selling_price := 75, discount_percent := 25, cost_price := none,
    quantity := 5, low_stock_threshold := 10, unit := none, sku := none,
    barcode := none, hsn_code := none, gst_percent := 0, images := [],
    thumbnail := none, is_active := true, is_featured := false,
    is_in_stock := true, last_synced_at := some 200, sync_version := 1,
    sync_checksum := some (calculate_checksum sample_item),
    created_at := 200, updated_at := 200 }

/-- Concrete store row. -/
def sample_store : Store :=
  { id := 1, name := "s", sync_tier := StoreTier.TIER3,
    sync_interval_minutes := 60, last_sync_at := some 100, is_active := true }

/-- Concrete database holding `sample_product` and `sample_store`. -/
def sample_db : Db := ⟨[sample_product], [sample_store], [], 20⟩

/-- Second concrete sync record: same externalId as `sample_item` with a
different quantity, hence a different checksum. -/
def sample_item2 : SyncProductItem := { sample_item with quantity := 6 }

/-- Valid raw sync record used by the C2 and C8 concrete instances. -/
def raw_ok : RawSyncProductItem :=
  ⟨some "e1", some "aa", none, some 100, some 75, some 5, none, none, none,
   none, none, none, none⟩

/-- Raw sync record with a missing externalId. -/
def raw_missing : RawSyncProductItem := { raw_ok with external_id := none }

/-- Raw 10-record batch whose record #5 is missing its externalId. -/
def c2_raw_batch : RawSyncBatchRequest :=
  ⟨1, "delta", 0,
   [raw_ok, raw_ok, raw_ok, raw_ok, raw_missing, raw_ok, raw_ok, raw_ok, raw_ok, raw_ok]⟩

/-- Raw batch request with zero records. -/
def c8_raw_empty : RawSyncBatchRequest := ⟨1, "full", 0, []⟩

/-! Helper lemmas about the row-list primitives and the batch loop. -/

theorem find_product_append_none {l : List Product} {sid : Nat} {e : String}
    (h : find_product l sid e = none) (p : Product)
    (hp : p.store_id = sid) (he : p.external_id = e) :
    find_product (l ++ [p]) sid e = some p := by
  induction l with
  | nil => simp [find_product, hp, he]
  | cons q rest ih =>
      by_cases hq : q.store_id = sid ∧ q.external_id = e
      · simp [find_product, hq] at h
      · simp [find_product, hq] at h ⊢
        exact ih h

theorem find_product_update_first {l : List Product} {sid : Nat} {e : String}
    {p : Product} (h : find_product l sid e = some p) (f : Product → Product)
    (hp : (f p).store_id = sid) (he : (f p).external_id = e) :
    find_product (update_first_product l sid e f) sid e = some (f p) := by
  induction l with
  | nil => simp [find_product] at h
  | cons q rest ih =>
      by_cases hq : q.store_id = sid ∧ q.external_id = e
      · simp [find_product, hq] at h
        subst h
        simp [update_first_product, hq, find_product, hp, he]
      · simp [find_product, hq] at h
        simp [update_first_product, hq, find_product]
        exact ih h

theorem find_store_update_first {l : List Store} {sid : Nat} {s : Store}
    (h : find_store l sid = some s) (f : Store → Store)
    (hid : (f s).id = sid) :
    find_store (update_first_store l sid f) sid = some (f s) := by
  induction l with
  | nil => simp [find_store] at h
  | cons q rest ih =>
      by_cases hq : q.id = sid
      · simp [find_store, hq] at h
        subst h
        simp [update_first_store, hq, find_store, hid]
      · simp [find_store, hq] at h
        simp [update_first_store, hq, find_store]
        exact ih h

theorem stats_add_init_left (t : SyncStats) : stats_add init_stats t = t := by
  simp [stats_add, init_stats]

theorem stats_add_init_right (s : SyncStats) : stats_add s init_stats = s := by
  simp [stats_add, init_stats]

theorem stats_add_assoc (s t u : SyncStats) :
    stats_add (stats_add s t) u = stats_add s (stats_add t u) := by
  simp [stats_add, Nat.add_assoc]

/-- Stats accumulate additively: the loop result from any starting counter is
the starting counter plus the result from the zero counter, and the database
result does not depend on the starting counter. -/
theorem sync_loop_shift (sid : Nat) (st : String) (now : Nat) :
    ∀ (l : List (SyncProductItem × Option String)) (s : SyncStats) (db : Db),
      sync_loop sid st now l s db =
        (stats_add s (sync_loop sid st now l init_stats db).1,
         (sync_loop sid st now l init_stats db).2)
  | [], s, db => by simp [sync_loop, stats_add_init_right]
  | (pd, some e) :: rest, s, db => by
      have h1 := sync_loop_shift sid st now rest { s with failed := s.failed + 1, errors := s.errors ++ [(pd.external_id, e)] } db
      have h2 := sync_loop_shift sid st now rest { init_stats with failed := init_stats.failed + 1, errors := init_stats.errors ++ [(pd.external_id, e)] } db
      simp only [sync_loop]
      rw [h1, h2]
      simp [stats_add, init_stats, Nat.add_assoc]
  | (pd, none) :: rest, s, db => by
      simp only [sync_loop]
      cases hr : (record_step db sid st now pd).1 with
      | created =>
          have h1 := sync_loop_shift sid st now rest { s with created := s.created + 1, processed := s.processed + 1 } (record_step db sid st now pd).2
          have h2 := sync_loop_shift sid st now rest { init_stats with created := init_stats.created + 1, processed := init_stats.processed + 1 } (record_step db sid st now pd).2
          rw [h1, h2]
          simp [stats_add, init_stats, Nat.add_assoc]
      | updated =>
          have h1 := sync_loop_shift sid st now rest { s with updated := s.updated + 1, processed := s.processed + 1 } (record_step db sid st now pd).2
          have h2 := sync_loop_shift sid st now rest { init_stats with updated := init_stats.updated + 1, processed := init_stats.processed + 1 } (record_step db sid st now pd).2
          rw [h1, h2]
          simp [stats_add, init_stats, Nat.add_assoc]

/-- Loop over a concatenation runs the two halves in sequence. -/
theorem sync_loop_append (sid : Nat) (st : String) (now : Nat) :
    ∀ (l1 l2 : List (SyncProductItem × Option String)) (s : SyncStats) (db : Db),
      sync_loop sid st now (l1 ++ l2) s db =
        sync_loop sid st now l2 (sync_loop sid st now l1 s db).1
          (sync_loop sid st now l1 s db).2
  | [], l2, s, db => by simp [sync_loop]
  | (pd, some e) :: rest, l2, s, db => by
      simp only [List.cons_append, sync_loop]
      exact sync_loop_append sid st now rest l2 _ db
  | (pd, none) :: rest, l2, s, db => by
      simp only [List.cons_append, sync_loop]
      exact sync_loop_append sid st now rest l2 _ _

/-- Fault-free runs fail nothing: every record is processed, no error is
recorded, and created + updated = number of records. -/
theorem sync_loop_no_faults (sid : Nat) (st : String) (now : Nat) :
    ∀ (l : List SyncProductItem) (db : Db),
      (sync_loop sid st now (with_no_faults l) init_stats db).1.processed = l.length ∧
      (sync_loop sid st now (with_no_faults l) init_stats db).1.failed = 0 ∧
      (sync_loop sid st now (with_no_faults l) init_stats db).1.errors = [] ∧
      (sync_loop sid st now (with_no_faults l) init_stats db).1.created +
        (sync_loop sid st now (with_no_faults l) init_stats db).1.updated = l.length
  | [], db => by simp [sync_loop, with_no_faults, init_stats]
  | pd :: rest, db => by
      obtain ⟨ih1, ih2, ih3, ih4⟩ := sync_loop_no_faults sid st now rest (record_step db sid st now pd).2
      simp only [with_no_faults, List.map_cons, sync_loop]
      simp only [with_no_faults] at ih1 ih2 ih3 ih4
      cases hr : (record_step db sid st now pd).1 with
      | created =>
          rw [sync_loop_shift]
          simp only [init_stats] at ih1 ih2 ih3 ih4
          simp [stats_add, init_stats, ih1, ih2, ih3]
          omega
      | updated =>
          rw [sync_loop_shift]
          simp only [init_stats] at ih1 ih2 ih3 ih4
          simp [stats_add, init_stats, ih1, ih2, ih3]
          omega

/-- Record-level operations never touch the store rows or the audit rows. -/
theorem upsert_product_preserves (db : Db) (sid : Nat) (pd : SyncProductItem)
    (st : String) (now : Nat) :
    (upsert_product db sid pd st now).2.stores = db.stores ∧
    (upsert_product db sid pd st now).2.sync_logs = db.sync_logs := by
  cases hf : find_product db.products sid pd.external_id with
  | some p =>
      simp only [upsert_product, hf]
      split <;> simp
  | none => simp [upsert_product, hf, fresh_id]

theorem update_inventory_only_preserves (db : Db) (sid : Nat) (pd : SyncProductItem)
    (now : Nat) :
    (update_inventory_only db sid pd now).2.stores = db.stores ∧
    (update_inventory_only db sid pd now).2.sync_logs = db.sync_logs := by
  cases hf : find_product db.products sid pd.external_id with
  | some p => simp [update_inventory_only, hf]
  | none =>
      simp only [update_inventory_only, hf]
      exact upsert_product_preserves db sid pd "full" now

theorem record_step_preserves (db : Db) (sid : Nat) (st : String) (now : Nat)
    (pd : SyncProductItem) :
    (record_step db sid st now pd).2.stores = db.stores ∧
    (record_step db sid st now pd).2.sync_logs = db.sync_logs := by
  unfold record_step
  split
  · exact update_inventory_only_preserves db sid pd now
  · exact upsert_product_preserves db sid pd st now

/-- The record loop never touches the store rows or the audit rows. -/
theorem sync_loop_preserves (sid : Nat) (st : String) (now : Nat) :
    ∀ (l : List (SyncProductItem × Option String)) (s : SyncStats) (db : Db),
      (sync_loop sid st now l s db).2.stores = db.stores ∧
      (sync_loop sid st now l s db).2.sync_logs = db.sync_logs
  | [], s, db => by simp [sync_loop]
  | (pd, some e) :: rest, s, db => by
      simp only [sync_loop]
      exact sync_loop_preserves sid st now rest _ db
  | (pd, none) :: rest, s, db => by
      simp only [sync_loop]
      have h1 := record_step_preserves db sid st now pd
      have h2 := sync_loop_preserves sid st now rest
        (match (record_step db sid st now pd).1 with
         | .created => { s with created := s.created + 1, processed := s.processed + 1 }
         | .updated => { s with updated := s.updated + 1, processed := s.processed + 1 })
        (record_step db sid st now pd).2
      exact ⟨h2.1.trans h1.1, h2.2.trans h1.2⟩

/-- Explicit form of `process_batch_sync` when the store exists. -/
theorem process_batch_sync_some (db : Db) (sid : Nat) (st : String)
    (l : List (SyncProductItem × Option String)) (now : Nat) (store : Store)
    (hs : find_store db.stores sid = some store) :
    process_batch_sync db sid st l now =
      (let r := sync_loop sid st now l init_stats { db with next_id := db.next_id + 1 }
       let stamp : Store → Store := fun s => { s with last_sync_at := some now }
       let db2 := { r.2 with stores := update_first_store r.2.stores sid stamp }
       let db3 := log_sync db2 sid db.next_id st r.1 now
       Except.ok
         ({ success := r.1.failed == 0
            sync_id := db.next_id
            processed := r.1.processed
            created := r.1.created
            updated := r.1.updated
            failed := r.1.failed
            errors := r.1.errors
            next_sync_recommended_at := calculate_next_sync_time store.sync_tier now
            duration_seconds := 0 }, db3)) := by
  simp only [process_batch_sync, hs, fresh_id]

/-- Claim C6: tier classification is a deterministic first-match-wins function
of the trailing-24h metrics only, with thresholds orders≥50 ∨ mutations≥100 →
TIER1 (5 min), orders≥20 ∨ mutations≥30 → TIER2 (15 min), orders≥5 ∨
mutations≥10 → TIER3 (60 min), else TIER4 (240 min); in particular orders=60,
mutations=5 gives TIER1 and orders=0, mutations=0 gives TIER4 with interval
240. -/
theorem c6_tier_classification_deterministic :
    (∀ orders updates : Int,
      calculate_tier orders updates =
        (if orders ≥ 50 ∨ updates ≥ 100 then StoreTier.TIER1
         else if orders ≥ 20 ∨ updates ≥ 30 then StoreTier.TIER2
         else if orders ≥ 5 ∨ updates ≥ 10 then StoreTier.TIER3
         else StoreTier.TIER4)) ∧
    calculate_tier 60 5 = StoreTier.TIER1 ∧
    calculate_tier 0 0 = StoreTier.TIER4 ∧
    get_sync_interval StoreTier.TIER1 = 5 ∧
    get_sync_interval StoreTier.TIER2 = 15 ∧
    get_sync_interval StoreTier.TIER3 = 60 ∧
    get_sync_interval StoreTier.TIER4 = 240 := by
  refine ⟨fun orders updates => rfl, by decide, by decide, rfl, rfl, rfl, rfl⟩

/-- Claim C5: the rate limiter is a fixed-window counter keyed by identifier,
endpoint and floor(now/window); one call increments that counter to `count`
and returns allowed = (count ≤ limit), remaining = max(0, limit − count) and
resetAt = (window index + 1) × window; with limit=5 and window=60s, six calls
inside one window return allowed=true with remaining 4,3,2,1,0 and then
allowed=false with remaining=0 and resetAt at the next window boundary. -/
theorem c5_rate_limiter_fixed_window :
    (∀ (st : CacheState) (identifier endpoint : String) (limit window now : Nat),
      check_rate_limit st identifier endpoint limit window now =
        ((decide (cache_count st (rate_limit_key identifier endpoint (now / window)) + 1 ≤ limit),
          limit - (cache_count st (rate_limit_key identifier endpoint (now / window)) + 1),
          (now / window + 1) * window),
         cache_set st (rate_limit_key identifier endpoint (now / window))
           (cache_count st (rate_limit_key identifier endpoint (now / window)) + 1))) ∧
    (∀ (st : CacheState) (identifier endpoint : String) (limit window now : Nat),
      ((check_rate_limit st identifier endpoint limit window now).1.2.1 : Int) =
        max 0 ((limit : Int) -
          ((cache_count st (rate_limit_key identifier endpoint (now / window)) + 1 : Nat) : Int))) ∧
    (let ep := "/api/v1/sync/products/batch"
     let r1 := check_rate_limit [] "store1" ep 5 60 30
     let r2 := check_rate_limit r1.2 "store1" ep 5 60 35
     let r3 := check_rate_limit r2.2 "store1" ep 5 60 40
     let r4 := check_rate_limit r3.2 "store1" ep 5 60 45
     let r5 := check_rate_limit r4.2 "store1" ep 5 60 50
     let r6 := check_rate_limit r5.2 "store1" ep 5 60 55
     r1.1 = (true, 4, 60) ∧ r2.1 = (true, 3, 60) ∧ r3.1 = (true, 2, 60) ∧
     r4.1 = (true, 1, 60) ∧ r5.1 = (true, 0, 60) ∧ r6.1 = (false, 0, 60)) := by
  refine ⟨fun st identifier endpoint limit window now => rfl, ?_, by decide⟩
  intro st identifier endpoint limit window now
  simp only [check_rate_limit, redis_increment]
  omega

/-- Claim C9: the `success` field of a batch sync response is true exactly
when failed = 0, and the audit row written for the session has status
"success" when failed = 0, "partial" when failed > 0 and processed > 0, and
"failed" when failed > 0 and no record was processed. -/
theorem c9_success_iff_and_log_status (db : Db) (store_id : Nat) (sync_type : String)
    (products : List (SyncProductItem × Option String)) (now : Nat)
    (resp : SyncBatchResponse) (db1 : Db)
    (h : process_batch_sync db store_id sync_type products now = Except.ok (resp, db1)) :
    (resp.success = true ↔ resp.failed = 0) ∧
    ∃ lg : SyncLog, db1.sync_logs = db.sync_logs ++ [lg] ∧
      (resp.failed = 0 → lg.status = "success") ∧
      (0 < resp.failed → 0 < resp.processed → lg.status = "partial") ∧
      (0 < resp.failed → resp.processed = 0 → lg.status = "failed") := by
  cases hs : find_store db.stores store_id with
  | none => simp [process_batch_sync, hs] at h
  | some store =>
      rw [process_batch_sync_some db store_id sync_type products now store hs] at h
      simp only [Except.ok.injEq, Prod.mk.injEq] at h
      obtain ⟨h1, h2⟩ := h
      subst h1
      subst h2
      have hpres := sync_loop_preserves store_id sync_type now products init_stats
        { db with next_id := db.next_id + 1 }
      constructor
      · simp
      · refine ⟨{ id := db.next_id
                  store_id := store_id
                  sync_type := sync_type
                  status := log_status
                    (sync_loop store_id sync_type now products init_stats
                      { db with next_id := db.next_id + 1 }).1.processed
                    (sync_loop store_id sync_type now products init_stats
                      { db with next_id := db.next_id + 1 }).1.failed
                  records_received :=
                    (sync_loop store_id sync_type now products init_stats
                      { db with next_id := db.next_id + 1 }).1.processed +
                    (sync_loop store_id sync_type now products init_stats
                      { db with next_id := db.next_id + 1 }).1.failed
                  records_created :=
                    (sync_loop store_id sync_type now products init_stats
                      { db with next_id := db.next_id + 1 }).1.created
                  records_updated :=
                    (sync_loop store_id sync_type now products init_stats
                      { db with next_id := db.next_id + 1 }).1.updated
                  records_failed :=
                    (sync_loop store_id sync_type now products init_stats
                      { db with next_id := db.next_id + 1 }).1.failed
                  duration_seconds := 0
                  error_details :=
                    if (sync_loop store_id sync_type now products init_stats
                        { db with next_id := db.next_id + 1 }).1.errors = [] then none
                    else some (sync_loop store_id sync_type now products init_stats
                        { db with next_id := db.next_id + 1 }).1.errors
                  started_at := now
                  completed_at := now }, ?_, ?_, ?_, ?_⟩
        · simp only [log_sync]
          simp [hpres.2]
        · intro hf
          simp only at hf
          simp [log_status, hf]
        · intro hf hp
          simp only at hf hp
          simp [log_status, Nat.pos_iff_ne_zero.mp hf, hp]
        · intro hf hp
          simp only at hf hp
          simp [log_status, Nat.pos_iff_ne_zero.mp hf, hp]

/-- Witness for claim C9 at a concrete one-store database and an empty record
list. -/
theorem c9_success_iff_and_log_status_witness :
    ((⟨true, 0, 0, 0, 0, 0, [], 3607, 0⟩ : SyncBatchResponse).success = true ↔
     (⟨true, 0, 0, 0, 0, 0, [], 3607, 0⟩ : SyncBatchResponse).failed = 0) ∧
    ∃ lg : SyncLog,
      (⟨[], [⟨1, "s", StoreTier.TIER3, 60, some 7, true⟩],
        [⟨0, 1, "full", "success", 0, 0, 0, 0, 0, none, 7, 7⟩], 1⟩ : Db).sync_logs =
        (⟨[], [⟨1, "s", StoreTier.TIER3, 60, none, true⟩], [], 0⟩ : Db).sync_logs ++ [lg] ∧
      ((⟨true, 0, 0, 0, 0, 0, [], 3607, 0⟩ : SyncBatchResponse).failed = 0 →
        lg.status = "success") ∧
      (0 < (⟨true, 0, 0, 0, 0, 0, [], 3607, 0⟩ : SyncBatchResponse).failed →
        0 < (⟨true, 0, 0, 0, 0, 0, [], 3607, 0⟩ : SyncBatchResponse).processed →
        lg.status = "partial") ∧
      (0 < (⟨true, 0, 0, 0, 0, 0, [], 3607, 0⟩ : SyncBatchResponse).failed →
        (⟨true, 0, 0, 0, 0, 0, [], 3607, 0⟩ : SyncBatchResponse).processed = 0 →
        lg.status = "failed") :=
  c9_success_iff_and_log_status
    ⟨[], [⟨1, "s", StoreTier.TIER3, 60, none, true⟩], [], 0⟩ 1 "full" [] 7
    ⟨true, 0, 0, 0, 0, 0, [], 3607, 0⟩
    ⟨[], [⟨1, "s", StoreTier.TIER3, 60, some 7, true⟩],
     [⟨0, 1, "full", "success", 0, 0, 0, 0, 0, none, 7, 7⟩], 1⟩
    (by rfl)

/-- Unchanged-checksum delta records are skipped without any write: the whole
record loop leaves the database exactly as it was and reports every record as
processed and `updated`. -/
theorem sync_loop_delta_unchanged (sid : Nat) (now : Nat) :
    ∀ (l : List SyncProductItem) (stats : SyncStats) (db : Db),
      (∀ pd ∈ l, ∃ p, find_product db.products sid pd.external_id = some p ∧
        p.sync_checksum = some (calculate_checksum pd)) →
      sync_loop sid "delta" now (with_no_faults l) stats db =
        (stats_add stats ⟨l.length, 0, l.length, 0, []⟩, db)
  | [], stats, db, _ => by simp [sync_loop, with_no_faults, stats_add]
  | pd :: rest, stats, db, h => by
      obtain ⟨p, hp, hc⟩ := h pd (List.mem_cons_self pd rest)
      have hstep : record_step db sid "delta" now pd = (UpsertOutcome.updated, db) := by
        simp [record_step, upsert_product, hp, hc]
      have ih := sync_loop_delta_unchanged sid now rest
        { stats with updated := stats.updated + 1, processed := stats.processed + 1 } db
        (fun q hq => h q (List.mem_cons_of_mem pd hq))
      simp only [with_no_faults, List.map_cons, sync_loop, hstep]
      simp only [with_no_faults] at ih
      rw [ih]
      simp [stats_add]
      omega

/-- Claim C1 (amended): for an existing catalog item, a `delta` upsert whose
incoming record has the same checksum as the stored row performs no write at
all — the catalog is byte-identical afterwards and no duplicate is created —
but the record is reported through the `updated` outcome (the source has no
separate `unchanged` outcome), so resubmitting an identical delta batch of M
records yields created = 0 and updated = M with the catalog unchanged. -/
theorem c1_unchanged_delta_batch (db : Db) (sid : Nat) (l : List SyncProductItem)
    (now : Nat) (store : Store) (hs : find_store db.stores sid = some store)
    (h : ∀ pd ∈ l, ∃ p, find_product db.products sid pd.external_id = some p ∧
      p.sync_checksum = some (calculate_checksum pd)) :
    ∃ resp db1,
      process_batch_sync db sid "delta" (with_no_faults l) now = Except.ok (resp, db1) ∧
      resp.created = 0 ∧ resp.updated = l.length ∧ resp.failed = 0 ∧
      db1.products = db.products := by
  rw [process_batch_sync_some db sid "delta" (with_no_faults l) now store hs]
  have hloop := sync_loop_delta_unchanged sid now l init_stats
    { db with next_id := db.next_id + 1 } h
  simp only [hloop, stats_add_init_left]
  refine ⟨_, _, rfl, by simp, by simp, by simp, by simp [log_sync]⟩

/-- Counterexample to claim C1 as stated: at the concrete fixture database,
resubmitting the identical record as a `delta` batch yields a response with
updated = 1 (the claim demands created = 0 and updated = 0, via a distinct
`unchanged` outcome that the source does not have), even though no write
occurs (`upsert_product` returns the untouched database). -/
theorem c1_counterexample :
    process_batch_sync sample_db 1 "delta" (with_no_faults [sample_item]) 300 =
      Except.ok (⟨true, 20, 1, 0, 1, 0, [], 3900, 0⟩,
        ⟨[sample_product],
         [⟨1, "s", StoreTier.TIER3, 60, some 300, true⟩],
         [⟨20, 1, "delta", "success", 1, 0, 1, 0, 0, none, 300, 300⟩], 21⟩) ∧
    upsert_product sample_db 1 sample_item "delta" 300 =
      (UpsertOutcome.updated, sample_db) := by
  exact ⟨by rfl, by rfl⟩

/-- Witness for the amended claim C1 at the concrete fixture database. -/
theorem c1_unchanged_delta_batch_witness :
    ∃ resp db1,
      process_batch_sync sample_db 1 "delta" (with_no_faults [sample_item]) 300 =
        Except.ok (resp, db1) ∧
      resp.created = 0 ∧ resp.updated = [sample_item].length ∧ resp.failed = 0 ∧
      db1.products = sample_db.products :=
  c1_unchanged_delta_batch sample_db 1 [sample_item] 300 sample_store (by decide)
    (by intro pd hpd
        simp only [List.mem_singleton] at hpd
        subst hpd
        exact ⟨sample_product, by decide, by decide⟩)

/-- Stored rows returned by the product lookup actually match the key. -/
theorem find_product_found_match :
    ∀ {l : List Product} {sid : Nat} {e : String} {p : Product},
      find_product l sid e = some p → p.store_id = sid ∧ p.external_id = e := by
  intro l
  induction l with
  | nil => intro sid e p h; simp [find_product] at h
  | cons q rest ih =>
      intro sid e p h
      by_cases hq : q.store_id = sid ∧ q.external_id = e
      · simp [find_product, hq] at h
        subst h
        exact hq
      · simp [find_product, hq] at h
        exact ih h

/-- Stored rows returned by the store lookup actually match the key. -/
theorem find_store_found_id :
    ∀ {l : List Store} {sid : Nat} {s : Store},
      find_store l sid = some s → s.id = sid := by
  intro l
  induction l with
  | nil => intro sid s h; simp [find_store] at h
  | cons q rest ih =>
      intro sid s h
      by_cases hq : q.id = sid
      · simp [find_store, hq] at h
        subst h
        exact hq
      · simp [find_store, hq] at h
        exact ih h

/-- Claim C3 (amended): `process_batch_sync` stamps the tenant's
`last_sync_at` to the session time unconditionally — also after a session in
which every record failed — and a SyncRun audit row is always written. -/
theorem c3_last_sync_always_stamped (db : Db) (sid : Nat) (st : String)
    (l : List (SyncProductItem × Option String)) (now : Nat) (store : Store)
    (hs : find_store db.stores sid = some store) :
    ∃ resp db1,
      process_batch_sync db sid st l now = Except.ok (resp, db1) ∧
      find_store db1.stores sid = some { store with last_sync_at := some now } ∧
      db1.sync_logs.length = db.sync_logs.length + 1 := by
  rw [process_batch_sync_some db sid st l now store hs]
  have hpres := sync_loop_preserves sid st now l init_stats { db with next_id := db.next_id + 1 }
  refine ⟨_, _, rfl, ?_, ?_⟩
  · simp only [log_sync]
    have hs2 : find_store (sync_loop sid st now l init_stats
        { db with next_id := db.next_id + 1 }).2.stores sid = some store := by
      rw [hpres.1]
      exact hs
    have := find_store_update_first hs2 (fun s => { s with last_sync_at := some now })
      (by simpa using find_store_found_id hs)
    simpa using this
  · simp [log_sync, hpres.2]

/-- Counterexample to claim C3 as stated: at the concrete fixture database, a
session in which the only record failed (processed = 0, a total failure)
still advances the store's `last_sync_at` from `some 100` to `some 300` —
the stamp at the end of `process_batch_sync` is unconditional. -/
theorem c3_counterexample :
    process_batch_sync sample_db 1 "delta" [(sample_item, some "boom")] 300 =
      Except.ok (⟨false, 20, 0, 0, 0, 1, [("e1", "boom")], 3900, 0⟩,
        ⟨[sample_product],
         [⟨1, "s", StoreTier.TIER3, 60, some 300, true⟩],
         [⟨20, 1, "delta", "failed", 1, 0, 0, 1, 0, some [("e1", "boom")], 300, 300⟩], 21⟩) ∧
    sample_store.last_sync_at = some 100 := by
  exact ⟨by rfl, by rfl⟩

/-- Witness for the amended claim C3 at the concrete fixture database, with a
totally failing one-record session. -/
theorem c3_last_sync_always_stamped_witness :
    ∃ resp db1,
      process_batch_sync sample_db 1 "delta" [(sample_item, some "boom")] 300 =
        Except.ok (resp, db1) ∧
      find_store db1.stores 1 = some { sample_store with last_sync_at := some 300 } ∧
      db1.sync_logs.length = sample_db.sync_logs.length + 1 :=
  c3_last_sync_always_stamped sample_db 1 "delta" [(sample_item, some "boom")] 300
    sample_store (by decide)

/-- Creation branch of `_upsert_product` as an equation: when the
(store, externalId) pair is absent, the new row `create_product` is appended
and the fresh-id counter advances. -/
theorem upsert_product_create (db : Db) (sid : Nat) (pd : SyncProductItem)
    (st : String) (now : Nat)
    (hnone : find_product db.products sid pd.external_id = none) :
    upsert_product db sid pd st now =
      (UpsertOutcome.created,
       { db with
         products := (db.products ++ [create_product db.next_id sid pd now])
         next_id := db.next_id + 1 }) := by
  simp only [upsert_product, hnone, fresh_id]

/-- Update branch of `_upsert_product` as an equation: a write to an existing
row (anything but the unchanged-checksum delta skip) replaces the first
matching row by its `apply_update` image. -/
theorem upsert_product_update (db : Db) (sid : Nat) (pd : SyncProductItem)
    (st : String) (now : Nat) (p : Product)
    (hp : find_product db.products sid pd.external_id = some p)
    (hcond : ¬ (st = "delta" ∧ p.sync_checksum = some (calculate_checksum pd))) :
    upsert_product db sid pd st now =
      (UpsertOutcome.updated,
       { db with products := (update_first_product db.products sid pd.external_id
           (apply_update pd now)) }) := by
  simp only [upsert_product, hp, hcond, if_false]

/-- Key fields of the `apply_update` image of a row. -/
theorem apply_update_fields (pd : SyncProductItem) (now : Nat) (p : Product) :
    (apply_update pd now p).sync_version = p.sync_version + 1 ∧
    (apply_update pd now p).sync_checksum = some (calculate_checksum pd) ∧
    (apply_update pd now p).store_id = p.store_id ∧
    (apply_update pd now p).external_id = p.external_id := by
  refine ⟨?_, ?_, ?_, ?_⟩ <;> simp [apply_update, update_product_fields]

/-- A delta-update chain starting at a stored row whose checksum equals the
previous record's checksum adds one version per record as long as consecutive
checksums differ. -/
theorem upsert_chain_version_aux (sid now : Nat) (e : String) :
    ∀ (l : List SyncProductItem) (db : Db) (p : Product) (prev : SyncProductItem),
      (∀ pd ∈ l, pd.external_id = e) →
      find_product db.products sid e = some p →
      p.sync_checksum = some (calculate_checksum prev) →
      List.Chain' (fun a b => calculate_checksum a ≠ calculate_checksum b) (prev :: l) →
      ∃ q, find_product (upsert_chain sid now l db).products sid e = some q ∧
        q.sync_version = p.sync_version + l.length
  | [], db, p, prev, _, hp, _, _ => ⟨p, by simpa [upsert_chain] using hp, by simp⟩
  | pd :: rest, db, p, prev, hext, hp, hcs, hchain => by
      have hne : calculate_checksum prev ≠ calculate_checksum pd :=
        (List.chain'_cons.mp hchain).1
      have hpd_e : pd.external_id = e := hext pd (List.mem_cons_self pd rest)
      have hcond : ¬ ("delta" = "delta" ∧ p.sync_checksum = some (calculate_checksum pd)) := by
        intro hx
        apply hne
        have h2 := hx.2
        rw [hcs] at h2
        exact Option.some_injective _ h2
      have hp2 : find_product db.products sid pd.external_id = some p := by
        rw [hpd_e]; exact hp
      have hmatch := find_product_found_match hp2
      have heq := upsert_product_update db sid pd "delta" now p hp2 hcond
      have hfind1 : find_product (upsert_product db sid pd "delta" now).2.products sid e =
          some (apply_update pd now p) := by
        rw [heq]
        rw [← hpd_e]
        exact find_product_update_first hp2 (apply_update pd now)
          ((apply_update_fields pd now p).2.2.1.trans hmatch.1)
          ((apply_update_fields pd now p).2.2.2.trans hmatch.2)
      obtain ⟨q, hq1, hq2⟩ := upsert_chain_version_aux sid now e rest
        (upsert_product db sid pd "delta" now).2 (apply_update pd now p) pd
        (fun x hx => hext x (List.mem_cons_of_mem pd hx))
        hfind1 (apply_update_fields pd now p).2.1 (List.chain'_cons.mp hchain).2
      refine ⟨q, by simpa [upsert_chain] using hq1, ?_⟩
      rw [hq2, (apply_update_fields pd now p).1]
      simp only [List.length_cons]
      push_cast
      ring

/-- Claim C4: syncVersion is 1 on creation; a real write to an existing item
(anything but the unchanged-checksum delta skip) increments syncVersion by
exactly 1, so it strictly increases on every write; and N successive delta
upserts of the same (store, externalId) with pairwise distinct consecutive
checksums, starting from an absent item, leave syncVersion = N. -/
theorem c4_sync_version_monotonic :
    (∀ (db : Db) (sid : Nat) (pd : SyncProductItem) (st : String) (now : Nat),
      find_product db.products sid pd.external_id = none →
      ∃ q, find_product (upsert_product db sid pd st now).2.products sid pd.external_id =
          some q ∧ q.sync_version = 1) ∧
    (∀ (db : Db) (sid : Nat) (pd : SyncProductItem) (st : String) (now : Nat) (p : Product),
      find_product db.products sid pd.external_id = some p →
      ¬ (st = "delta" ∧ p.sync_checksum = some (calculate_checksum pd)) →
      ∃ q, find_product (upsert_product db sid pd st now).2.products sid pd.external_id =
          some q ∧ q.sync_version = p.sync_version + 1) ∧
    (∀ (db : Db) (sid : Nat) (e : String) (l : List SyncProductItem) (now : Nat),
      (∀ pd ∈ l, pd.external_id = e) →
      find_product db.products sid e = none →
      List.Chain' (fun a b => calculate_checksum a ≠ calculate_checksum b) l →
      l ≠ [] →
      ∃ q, find_product (upsert_chain sid now l db).products sid e = some q ∧
        q.sync_version = l.length) := by
  refine ⟨?_, ?_, ?_⟩
  · intro db sid pd st now hnone
    rw [upsert_product_create db sid pd st now hnone]
    exact ⟨create_product db.next_id sid pd now,
      find_product_append_none hnone _ rfl rfl, rfl⟩
  · intro db sid pd st now p hp hcond
    rw [upsert_product_update db sid pd st now p hp hcond]
    have hmatch := find_product_found_match hp
    exact ⟨apply_update pd now p,
      find_product_update_first hp (apply_update pd now)
        ((apply_update_fields pd now p).2.2.1.trans hmatch.1)
        ((apply_update_fields pd now p).2.2.2.trans hmatch.2),
      (apply_update_fields pd now p).1⟩
  · intro db sid e l now hext hnone hchain hnil
    cases l with
    | nil => exact absurd rfl hnil
    | cons pd0 rest =>
        have hpd0_e : pd0.external_id = e := hext pd0 (List.mem_cons_self pd0 rest)
        have hnone2 : find_product db.products sid pd0.external_id = none := by
          rw [hpd0_e]; exact hnone
        have heq0 := upsert_product_create db sid pd0 "delta" now hnone2
        have hfind0e : find_product (upsert_product db sid pd0 "delta" now).2.products sid e =
            some (create_product db.next_id sid pd0 now) := by
          rw [heq0, ← hpd0_e]
          exact find_product_append_none hnone2 _ rfl rfl
        obtain ⟨q, hq1, hq2⟩ := upsert_chain_version_aux sid now e rest
          (upsert_product db sid pd0 "delta" now).2 (create_product db.next_id sid pd0 now) pd0
          (fun x hx => hext x (List.mem_cons_of_mem pd0 hx))
          hfind0e rfl hchain
        refine ⟨q, by simpa [upsert_chain] using hq1, ?_⟩
        rw [hq2]
        simp only [create_product, List.length_cons]
        push_cast
        ring

/-- Witness for claim C4: creation at an empty catalog, one real write on the
fixture database, and a two-record delta chain from an empty catalog. -/
theorem c4_sync_version_monotonic_witness :
    (∃ q, find_product
        (upsert_product ⟨[], [sample_store], [], 0⟩ 1 sample_item "full" 5).2.products
        1 sample_item.external_id = some q ∧ q.sync_version = 1) ∧
    (∃ q, find_product
        (upsert_product sample_db 1 sample_item2 "full" 400).2.products
        1 sample_item2.external_id = some q ∧
        q.sync_version = sample_product.sync_version + 1) ∧
    (∃ q, find_product
        (upsert_chain 1 5 [sample_item, sample_item2] ⟨[], [sample_store], [], 0⟩).products
        1 "e1" = some q ∧
        q.sync_version = ([sample_item, sample_item2] : List SyncProductItem).length) :=
  ⟨c4_sync_version_monotonic.1 ⟨[], [sample_store], [], 0⟩ 1 sample_item "full" 5 (by decide),
   c4_sync_version_monotonic.2.1 sample_db 1 sample_item2 "full" 400 sample_product
     (by decide) (by decide),
   c4_sync_version_monotonic.2.2 ⟨[], [sample_store], [], 0⟩ 1 "e1"
     [sample_item, sample_item2] 5 (by decide) (by decide)
     (by simp only [List.chain'_cons, List.chain'_singleton, and_true]; decide) (by decide)⟩

/-- Claim C7 (amended): for an existing item the inventory-only fast path
reports `updated` and replaces the stored row by one that differs exactly in
quantity, isInStock, lastSyncedAt and updatedAt; name, prices, checksum,
version and every other stored field are byte-identical. -/
theorem c7_inventory_only_frame (db : Db) (sid : Nat) (pd : SyncProductItem)
    (now : Nat) (p : Product)
    (hp : find_product db.products sid pd.external_id = some p) :
    (update_inventory_only db sid pd now).1 = UpsertOutcome.updated ∧
    find_product (update_inventory_only db sid pd now).2.products sid pd.external_id =
      some { p with
        quantity := pd.quantity
        is_in_stock := decide (0 < pd.quantity)
        last_synced_at := some now
        updated_at := now } := by
  have hmatch := find_product_found_match hp
  simp only [update_inventory_only, hp]
  exact ⟨trivial, find_product_update_first hp (apply_inventory_update pd now)
    (by simp [apply_inventory_update, hmatch.1])
    (by simp [apply_inventory_update, hmatch.2])⟩

/-- Counterexample to claim C7 as stated: the fast path also rewrites the
`updated_at` column (from 200 to 500 at the fixture), so not every stored
field outside quantity/isInStock/lastSyncedAt is byte-identical. -/
theorem c7_counterexample :
    (find_product (update_inventory_only sample_db 1 sample_item2 500).2.products
      1 "e1").map Product.updated_at = some 500 ∧
    sample_product.updated_at = 200 := by
  exact ⟨by rfl, by rfl⟩

/-- Witness for the amended claim C7 at the fixture database. -/
theorem c7_inventory_only_frame_witness :
    (update_inventory_only sample_db 1 sample_item2 500).1 = UpsertOutcome.updated ∧
    find_product (update_inventory_only sample_db 1 sample_item2 500).2.products
      1 sample_item2.external_id =
      some { sample_product with
        quantity := sample_item2.quantity
        is_in_stock := decide (0 < sample_item2.quantity)
        last_synced_at := some 500
        updated_at := 500 } :=
  c7_inventory_only_frame sample_db 1 sample_item2 500 sample_product (by decide)

/-- Claim C10: the inventory-only fast path for an absent externalId does not
fail: it is literally the full upsert, which creates the row with every
supplied and derived field and syncVersion 1, reports `created`, and a batch
containing only that record counts created = 1. -/
theorem c10_inventory_fallback_creates (db : Db) (sid : Nat) (pd : SyncProductItem)
    (now : Nat) (store : Store)
    (hnone : find_product db.products sid pd.external_id = none)
    (hs : find_store db.stores sid = some store) :
    update_inventory_only db sid pd now = upsert_product db sid pd "full" now ∧
    update_inventory_only db sid pd now =
      (UpsertOutcome.created,
       { db with
         products := (db.products ++ [create_product db.next_id sid pd now])
         next_id := db.next_id + 1 }) ∧
    (create_product db.next_id sid pd now).sync_version = 1 ∧
    (create_product db.next_id sid pd now).name = pd.name ∧
    (create_product db.next_id sid pd now).mrp = pd.mrp ∧
    (create_product db.next_id sid pd now).selling_price = pd.selling_price ∧
    (create_product db.next_id sid pd now).quantity = pd.quantity ∧
    (create_product db.next_id sid pd now).is_in_stock = decide (0 < pd.quantity) ∧
    (create_product db.next_id sid pd now).slug = generate_slug pd.name ∧
    (create_product db.next_id sid pd now).discount_percent =
      calculate_discount pd.mrp pd.selling_price ∧
    (create_product db.next_id sid pd now).sync_checksum =
      some (calculate_checksum pd) ∧
    (∃ resp db1,
      process_batch_sync db sid "inventory_only" [(pd, none)] now = Except.ok (resp, db1) ∧
      resp.created = 1 ∧ resp.processed = 1 ∧ resp.failed = 0) := by
  have hfall : update_inventory_only db sid pd now = upsert_product db sid pd "full" now := by
    simp only [update_inventory_only, hnone]
  refine ⟨hfall, ?_, rfl, rfl, rfl, rfl, rfl, rfl, rfl, rfl, rfl, ?_⟩
  · rw [hfall]
    exact upsert_product_create db sid pd "full" now hnone
  · rw [process_batch_sync_some db sid "inventory_only" [(pd, none)] now store hs]
    have hnone2 : find_product ({ db with next_id := db.next_id + 1 } : Db).products
        sid pd.external_id = none := hnone
    have hstep : record_step { db with next_id := db.next_id + 1 } sid "inventory_only" now pd =
        (UpsertOutcome.created,
         { { db with next_id := db.next_id + 1 } with
           products := (({ db with next_id := db.next_id + 1 } : Db).products ++
             [create_product ({ db with next_id := db.next_id + 1 } : Db).next_id sid pd now])
           next_id := ({ db with next_id := db.next_id + 1 } : Db).next_id + 1 }) := by
      rw [record_step, if_pos rfl]
      rw [update_inventory_only, hnone2]
      exact upsert_product_create { db with next_id := db.next_id + 1 } sid pd "full" now hnone2
    simp only [sync_loop, hstep]
    exact ⟨_, _, rfl, rfl, rfl, rfl⟩

/-- Witness for claim C10: inventory-only sync of an absent item against an
empty catalog creates it. -/
theorem c10_inventory_fallback_creates_witness :
    update_inventory_only ⟨[], [sample_store], [], 0⟩ 1 sample_item 5 =
      upsert_product ⟨[], [sample_store], [], 0⟩ 1 sample_item "full" 5 ∧
    update_inventory_only ⟨[], [sample_store], [], 0⟩ 1 sample_item 5 =
      (UpsertOutcome.created,
       ⟨[create_product 0 1 sample_item 5], [sample_store], [], 1⟩) ∧
    (create_product 0 1 sample_item 5).sync_version = 1 ∧
    (create_product 0 1 sample_item 5).name = sample_item.name ∧
    (create_product 0 1 sample_item 5).mrp = sample_item.mrp ∧
    (create_product 0 1 sample_item 5).selling_price = sample_item.selling_price ∧
    (create_product 0 1 sample_item 5).quantity = sample_item.quantity ∧
    (create_product 0 1 sample_item 5).is_in_stock = decide (0 < sample_item.quantity) ∧
    (create_product 0 1 sample_item 5).slug = generate_slug sample_item.name ∧
    (create_product 0 1 sample_item 5).discount_percent =
      calculate_discount sample_item.mrp sample_item.selling_price ∧
    (create_product 0 1 sample_item 5).sync_checksum =
      some (calculate_checksum sample_item) ∧
    (∃ resp db1,
      process_batch_sync ⟨[], [sample_store], [], 0⟩ 1 "inventory_only"
        [(sample_item, none)] 5 = Except.ok (resp, db1) ∧
      resp.created = 1 ∧ resp.processed = 1 ∧ resp.failed = 0) :=
  c10_inventory_fallback_creates ⟨[], [sample_store], [], 0⟩ 1 sample_item 5 sample_store
    (by decide) (by decide)

/-- Single in-loop fault isolation at the loop level: one faulted record in
the middle of an otherwise fault-free batch leaves the final database exactly
as the run without that record, adds one failure and one error entry, and
processes the other records normally. -/
theorem sync_loop_single_fault (sid : Nat) (st : String) (now : Nat)
    (A B : List SyncProductItem) (pd : SyncProductItem) (e : String) (db : Db) :
    (sync_loop sid st now (with_no_faults A ++ (pd, some e) :: with_no_faults B)
        init_stats db).2 =
      (sync_loop sid st now (with_no_faults (A ++ B)) init_stats db).2 ∧
    (sync_loop sid st now (with_no_faults A ++ (pd, some e) :: with_no_faults B)
        init_stats db).1.processed = A.length + B.length ∧
    (sync_loop sid st now (with_no_faults A ++ (pd, some e) :: with_no_faults B)
        init_stats db).1.failed = 1 ∧
    (sync_loop sid st now (with_no_faults A ++ (pd, some e) :: with_no_faults B)
        init_stats db).1.errors = [(pd.external_id, e)] ∧
    (sync_loop sid st now (with_no_faults A ++ (pd, some e) :: with_no_faults B)
        init_stats db).1.created =
      (sync_loop sid st now (with_no_faults (A ++ B)) init_stats db).1.created ∧
    (sync_loop sid st now (with_no_faults A ++ (pd, some e) :: with_no_faults B)
        init_stats db).1.updated =
      (sync_loop sid st now (with_no_faults (A ++ B)) init_stats db).1.updated := by
  have happ1 := sync_loop_append sid st now (with_no_faults A)
    ((pd, some e) :: with_no_faults B) init_stats db
  have hAB : with_no_faults (A ++ B) = with_no_faults A ++ with_no_faults B := by
    simp [with_no_faults]
  have happ0 := sync_loop_append sid st now (with_no_faults A) (with_no_faults B)
    init_stats db
  obtain ⟨hA1, hA2, hA3, hA4⟩ := sync_loop_no_faults sid st now A db
  obtain ⟨hB1, hB2, hB3, hB4⟩ := sync_loop_no_faults sid st now B
    (sync_loop sid st now (with_no_faults A) init_stats db).2
  have hmid : sync_loop sid st now ((pd, some e) :: with_no_faults B)
      (sync_loop sid st now (with_no_faults A) init_stats db).1
      (sync_loop sid st now (with_no_faults A) init_stats db).2 =
      sync_loop sid st now (with_no_faults B)
        { (sync_loop sid st now (with_no_faults A) init_stats db).1 with
          failed := (sync_loop sid st now (with_no_faults A) init_stats db).1.failed + 1
          errors := ((sync_loop sid st now (with_no_faults A) init_stats db).1.errors ++
            [(pd.external_id, e)]) }
        (sync_loop sid st now (with_no_faults A) init_stats db).2 := by
    simp only [sync_loop]
  have hshift1 := sync_loop_shift sid st now (with_no_faults B)
    { (sync_loop sid st now (with_no_faults A) init_stats db).1 with
      failed := (sync_loop sid st now (with_no_faults A) init_stats db).1.failed + 1
      errors := ((sync_loop sid st now (with_no_faults A) init_stats db).1.errors ++
        [(pd.external_id, e)]) }
    (sync_loop sid st now (with_no_faults A) init_stats db).2
  have hshift0 := sync_loop_shift sid st now (with_no_faults B)
    (sync_loop sid st now (with_no_faults A) init_stats db).1
    (sync_loop sid st now (with_no_faults A) init_stats db).2
  rw [happ1, hmid, hshift1, hAB, happ0, hshift0]
  refine ⟨rfl, ?_, ?_, ?_, ?_, ?_⟩ <;>
    simp [stats_add, hA1, hA2, hA3, hB1, hB2, hB3]

/-- A raw batch containing any record with a missing externalId fails item
validation (pydantic validates `external_id` first, so such a record always
produces a field error). -/
theorem validate_all_items_missing_external_id :
    ∀ (l : List RawSyncProductItem), (∃ r ∈ l, r.external_id = none) →
      ∃ e, validate_all_items l = Except.error e
  | [], h => by simp at h
  | r :: rest, h => by
      cases hr : r.external_id with
      | none =>
          refine ⟨"external_id field required", ?_⟩
          simp [validate_all_items, validate_sync_product_item, hr]
      | some ext =>
          obtain ⟨r2, hmem, hnone⟩ := h
          rcases List.mem_cons.mp hmem with h1 | h2
          · subst h1
            rw [hr] at hnone
            exact absurd hnone (by simp)
          · obtain ⟨e, he⟩ := validate_all_items_missing_external_id rest ⟨r2, h2, hnone⟩
            cases hv : validate_sync_product_item r with
            | error e2 => exact ⟨e2, by simp [validate_all_items, hv]⟩
            | ok item => exact ⟨e, by simp [validate_all_items, hv, he]⟩

/-- Claim C2 (amended): a record with a missing externalId is rejected by
request validation, which aborts the whole batch with the database untouched
(not per-record isolation). Per-record isolation holds for failures inside
the engine loop: with one faulted record among M, the other M−1 commit
exactly as they would without it, and the response reports
processed = M−1 (not M), failed = 1 and that record's single error. -/
theorem c2_partial_failure_isolation :
    (∀ (db : Db) (raw : RawSyncBatchRequest) (now : Nat),
      (∃ r ∈ raw.products, r.external_id = none) →
      ∃ e, sync_products_batch db raw now = (Except.error e, db)) ∧
    (∀ (db : Db) (sid : Nat) (st : String) (A B : List SyncProductItem)
        (pd : SyncProductItem) (e : String) (now : Nat) (store : Store),
      find_store db.stores sid = some store →
      ∃ resp db1 resp0 db0,
        process_batch_sync db sid st
          (with_no_faults A ++ (pd, some e) :: with_no_faults B) now =
            Except.ok (resp, db1) ∧
        process_batch_sync db sid st (with_no_faults (A ++ B)) now =
            Except.ok (resp0, db0) ∧
        resp.processed = A.length + B.length ∧
        resp.failed = 1 ∧
        resp.errors = [(pd.external_id, e)] ∧
        resp.created = resp0.created ∧
        resp.updated = resp0.updated ∧
        db1.products = db0.products ∧
        db1.stores = db0.stores) := by
  constructor
  · intro db raw now h
    have hval : ∃ e, validate_sync_batch_request raw = Except.error e := by
      simp only [validate_sync_batch_request]
      split
      · exact ⟨_, rfl⟩
      · split
        · exact ⟨_, rfl⟩
        · obtain ⟨e, he⟩ := validate_all_items_missing_external_id raw.products h
          rw [he]
          exact ⟨e, rfl⟩
    obtain ⟨e0, he0⟩ := hval
    exact ⟨e0, by simp [sync_products_batch, he0]⟩
  · intro db sid st A B pd e now store hs
    rw [process_batch_sync_some db sid st
        (with_no_faults A ++ (pd, some e) :: with_no_faults B) now store hs,
      process_batch_sync_some db sid st (with_no_faults (A ++ B)) now store hs]
    obtain ⟨hdb, hproc, hfail, herr, hcre, hupd⟩ :=
      sync_loop_single_fault sid st now A B pd e { db with next_id := db.next_id + 1 }
    refine ⟨_, _, _, _, rfl, rfl, ?_, ?_, ?_, ?_, ?_, ?_, ?_⟩
    · simpa using hproc
    · simpa using hfail
    · simpa using herr
    · simpa using hcre
    · simpa using hupd
    · simp only [log_sync]
      simp [hdb]
    · simp only [log_sync]
      simp [hdb]

/-- Counterexample to claim C2 as stated: a 10-record batch whose record #5
is missing its externalId is rejected wholesale by request validation — no
response with processed = 10 and failed = 1 exists, no record is committed
and the database is returned untouched. -/
theorem c2_counterexample :
    sync_products_batch sample_db c2_raw_batch 600 =
      (Except.error "external_id field required", sample_db) := by
  rfl

/-- Witness for the amended claim C2: the concrete 10-record batch with a
missing externalId is rejected wholesale, and a concrete three-record engine
run with the middle record faulted isolates exactly that record. -/
theorem c2_partial_failure_isolation_witness :
    (∃ e, sync_products_batch sample_db c2_raw_batch 600 = (Except.error e, sample_db)) ∧
    (∃ resp db1 resp0 db0,
      process_batch_sync sample_db 1 "full"
        (with_no_faults [sample_item] ++ (sample_item, some "boom") ::
          with_no_faults [sample_item2]) 700 = Except.ok (resp, db1) ∧
      process_batch_sync sample_db 1 "full"
        (with_no_faults ([sample_item] ++ [sample_item2])) 700 = Except.ok (resp0, db0) ∧
      resp.processed = [sample_item].length + [sample_item2].length ∧
      resp.failed = 1 ∧
      resp.errors = [(sample_item.external_id, "boom")] ∧
      resp.created = resp0.created ∧
      resp.updated = resp0.updated ∧
      db1.products = db0.products ∧
      db1.stores = db0.stores) :=
  ⟨c2_partial_failure_isolation.1 sample_db c2_raw_batch 600 ⟨raw_missing, by decide, rfl⟩,
   c2_partial_failure_isolation.2 sample_db 1 "full" [sample_item] [sample_item2]
     sample_item "boom" 700 sample_store (by decide)⟩

/-- Claim C8: a sync batch request with more than 1000 records, or with zero
records, fails pydantic validation: the whole request is rejected before any
record is processed and the database is returned untouched. -/
theorem c8_batch_size_validation (db : Db) (raw : RawSyncBatchRequest) (now : Nat)
    (h : 1000 < raw.products.length ∨ raw.products.length = 0) :
    ∃ e, sync_products_batch db raw now = (Except.error e, db) := by
  have hval : ∃ e, validate_sync_batch_request raw = Except.error e := by
    simp only [validate_sync_batch_request]
    split
    · exact ⟨_, rfl⟩
    · rcases h with hover | hzero
      · rw [if_pos hover]
        exact ⟨_, rfl⟩
      · have hnil : raw.products = [] := List.length_eq_zero.mp hzero
        rw [hnil]
        refine ⟨"Products list cannot be empty", ?_⟩
        simp [validate_all_items]
  obtain ⟨e0, he0⟩ := hval
  exact ⟨e0, by simp [sync_products_batch, he0]⟩

/-- Witness for claim C8 at the concrete empty batch. -/
theorem c8_batch_size_validation_witness :
    (1000 < c8_raw_empty.products.length ∨ c8_raw_empty.products.length = 0) ∧
    (∃ e, sync_products_batch sample_db c8_raw_empty 0 = (Except.error e, sample_db)) :=
  ⟨Or.inr rfl, c8_batch_size_validation sample_db c8_raw_empty 0 (Or.inr rfl)⟩
